import Mathlib

/-!
Shallow embedding of the charging-session cost engine of the
demo-mobile-charging repository.

Sources embedded here:
* charging-station/pricing_calculator.py (namespace Pricing):
  get_current_time_based_pricing, calculate_tiered_cost,
  calculate_single_plan_cost, calculate_total_charging_cost.
* charging-station/read_rfid.py (namespace Rfid): its own copies of
  calculate_single_plan_cost and calculate_total_charging_cost, and the
  session state machine set_charging_state.

Modelling conventions: Python floats are modelled as exact rationals;
Python dicts holding plan data are modelled as structures whose shape
field records which of the duck-typed keys (pricingGroups / priceTiers)
is present; datetimes are a day index plus a wall-clock time of day;
collaborator calls (token fetch, HTTP requests, display, relay, events)
are modelled by their returned outcome, which the callers in the source
receive as a return value because every collaborator catches its own
exceptions and returns None/False on failure.  Two calls in the embedded
code do raise: the create_nitrobox_usage call in set_charging_state omits
the required product_ident parameter of
request_create_usage.create_nitrobox_usage (TypeError on session close),
and the un-awaited call of the async get_option_idents_from_contract
makes option_idents a coroutine object whose len() raises TypeError on
session start; an uncaught exception is modelled as the result none.
-/

/-- Wall-clock time of day.  Pricing-rule boundaries arrive as "HH:MM:SS"
strings; hour/minute/second are the three parsed components. -/
structure TimeOfDay where
  hour : ℕ
  minute : ℕ
  second : ℕ
deriving DecidableEq, Repr

/-- A rule's time period: plan_options["pricingGroups"][i]["pricingRules"][j]
["criteria"]["timePeriod"].  The field end_ models the JSON key "end". -/
structure TimePeriod where
  start : TimeOfDay
  end_ : TimeOfDay
deriving DecidableEq, Repr

/-- One time-banded pricing rule: its timePeriod and price.amount. -/
structure PricingRule where
  timePeriod : TimePeriod
  amount : ℚ
deriving DecidableEq, Repr

/-- One price tier: priceTiers[i].quantity and priceTiers[i].price. -/
structure Tier where
  quantity : ℚ
  price : ℚ
deriving DecidableEq, Repr

/-- Which of the duck-typed keys the plan-option dict carries:
"pricingGroups" (each group holding its "pricingRules" list),
"priceTiers", or neither (which the source reports as an unknown plan
structure and prices at 0; an empty/falsy dict also costs 0). -/
inductive PlanShape where
  | timeBanded (pricingGroups : List (List PricingRule))
  | tiered (priceTiers : List Tier)
  | unknown
deriving DecidableEq, Repr

/-- A plan-option dict: the free-text names used for classification, the
optional "quantityType" key, and the pricing payload. -/
structure PlanOptions where
  optionName : Option String
  name : Option String
  quantityType : Option String
  shape : PlanShape
deriving DecidableEq, Repr

/-- A datetime: day index plus time of day.  (end - start).total_seconds()
is the difference of the absolute second counts. -/
structure DateTime where
  day : ℕ
  time : TimeOfDay
deriving DecidableEq, Repr

/-- Minutes since midnight, computed from hour and minute only, exactly as
every time comparison in the source does (seconds are parsed away by
split(":")[0:2]). -/
def TimeOfDay.totalMinutes (t : TimeOfDay) : ℕ :=
  t.hour * 60 + t.minute

/-- Absolute second count of a datetime. -/
def DateTime.toSeconds (d : DateTime) : ℤ :=
  (d.day : ℤ) * 86400 + (d.time.hour : ℤ) * 3600 + (d.time.minute : ℤ) * 60 + (d.time.second : ℤ)

/-- duration_seconds = (end_time - start_time).total_seconds(). -/
def durationSeconds (start_time end_time : DateTime) : ℚ :=
  ((end_time.toSeconds - start_time.toSeconds : ℤ) : ℚ)

/-- ASCII lower-casing, modelling str.lower() on the option names seen in
the data (ASCII). -/
def strLower (s : String) : String :=
  String.mk (s.data.map Char.toLower)

/-- ASCII upper-casing, modelling str.upper() on quantityType values. -/
def strUpper (s : String) : String :=
  String.mk (s.data.map Char.toUpper)

/-- Python's substring test (needle in hay). -/
def strContainsSub (hay needle : String) : Bool :=
  (List.range (hay.data.length + 1)).any fun i => needle.data.isPrefixOf (hay.data.drop i)

/-- The duration-unit conversion block shared by both files:
SECOND keeps raw seconds, MINUTE divides by 60, HOUR divides by 3600, any
other quantityType falls back to seconds (with a logged warning). -/
def convertUnits (quantity_type : String) (duration_seconds : ℚ) : ℚ :=
  if strUpper quantity_type = "SECOND" then duration_seconds
  else if strUpper quantity_type = "MINUTE" then duration_seconds / 60
  else if strUpper quantity_type = "HOUR" then duration_seconds / 3600
  else duration_seconds

/-- The rule-matching condition of the resolver loops: a rule whose band
does not cross midnight matches a half-open [start, end) interval of
minutes; a band with start > end (overnight) matches when the instant is
at/after start or before end. -/
def ruleMatches (rule : PricingRule) (current_total_minutes : ℕ) : Bool :=
  let rule_start_total_minutes := rule.timePeriod.start.totalMinutes
  let rule_end_total_minutes := rule.timePeriod.end_.totalMinutes
  if rule_start_total_minutes ≤ rule_end_total_minutes then
    decide (rule_start_total_minutes ≤ current_total_minutes ∧
      current_total_minutes < rule_end_total_minutes)
  else
    decide (current_total_minutes ≥ rule_start_total_minutes ∨
      current_total_minutes < rule_end_total_minutes)

/-- The price_per_unit loop of calculate_single_plan_cost (both files):
price_per_unit starts at 0.0 and the loop breaks on the first rule whose
time period contains the instant. -/
def findPricePerUnit (current_total_minutes : ℕ) : List PricingRule → ℚ
  | [] => 0
  | rule :: rest =>
    if ruleMatches rule current_total_minutes then rule.amount
    else findPricePerUnit current_total_minutes rest

namespace Pricing

/-- Zero left-padding of f-string formatting like f"{start_hour:02d}". -/
def pad2 (n : ℕ) : String :=
  if n < 10 then "0" ++ toString n else toString n

/-- pricing_calculator.get_current_time_based_pricing: walks the rules,
returns (price_amount, formatted start "HH:MM", formatted end "HH:MM",
period_name) for the first rule containing the current time, else None.
The ambient datetime.now().time() is passed explicitly as current_time. -/
def get_current_time_based_pricing (pricing_rules : List PricingRule)
    (current_time : TimeOfDay) : Option (ℚ × String × String × String) :=
  loop pricing_rules current_time.totalMinutes
where
  /-- The for-loop over pricing_rules. -/
  loop : List PricingRule → ℕ → Option (ℚ × String × String × String)
  | [], _ => none
  | rule :: rest, current_total_minutes =>
    let start_hour := rule.timePeriod.start.hour
    let start_minute := rule.timePeriod.start.minute
    let end_hour := rule.timePeriod.end_.hour
    let end_minute := rule.timePeriod.end_.minute
    let start_total_minutes := start_hour * 60 + start_minute
    let end_total_minutes := end_hour * 60 + end_minute
    if start_total_minutes ≤ end_total_minutes then
      if start_total_minutes ≤ current_total_minutes ∧
          current_total_minutes < end_total_minutes then
        let price_amount := rule.amount
        let period_name :=
          if 6 ≤ start_hour ∧ end_hour ≤ 22 then "Daytime"
          else if price_amount = 0 then "FREE"
          else "Standard"
        some (price_amount, pad2 start_hour ++ ":" ++ pad2 start_minute,
          pad2 end_hour ++ ":" ++ pad2 end_minute, period_name)
      else loop rest current_total_minutes
    else
      if current_total_minutes ≥ start_total_minutes ∨
          current_total_minutes < end_total_minutes then
        let price_amount := rule.amount
        let period_name := if price_amount = 0 then "FREE" else "Nighttime"
        some (price_amount, pad2 start_hour ++ ":" ++ pad2 start_minute,
          pad2 end_hour ++ ":" ++ pad2 end_minute, period_name)
      else loop rest current_total_minutes

/-- The tier loop of pricing_calculator.calculate_tiered_cost.  Each
iteration first breaks if remaining_units ≤ 0, otherwise consumes
min(remaining_units, tier.quantity) at tier.price; on the last tier any
still-remaining units are additionally billed at that tier's price. -/
def tieredLoop : ℚ → List Tier → ℚ
  | _, [] => 0
  | remaining_units, tier :: rest =>
    if remaining_units ≤ 0 then 0
    else
      let units_in_this_tier := min remaining_units tier.quantity
      let tier_cost := units_in_this_tier * tier.price
      let remaining2 := remaining_units - units_in_this_tier
      match rest with
      | [] => tier_cost + (if 0 < remaining2 then remaining2 * tier.price else 0)
      | _ :: _ => tier_cost + tieredLoop remaining2 rest

/-- pricing_calculator.calculate_tiered_cost: returns 0.0 for an empty
tier list, else runs the tier loop on total_units. -/
def calculate_tiered_cost (total_units : ℚ) (price_tiers : List Tier) : ℚ :=
  if price_tiers.isEmpty then 0 else tieredLoop total_units price_tiers

/-- pricing_calculator.calculate_single_plan_cost.  A dict with
"pricingGroups" is priced time-banded: the rate of the first rule matching
start_time's time of day (0.0 if none) times the duration converted to
quantityType units (default "MINUTE").  A dict with "priceTiers" is priced
by calculate_tiered_cost on the converted duration (default "SECOND").
Any other shape (including a falsy plan_options) costs 0.0.
pricingGroups[0] is modelled with headD: the source would raise IndexError
on an empty pricingGroups list, which no claim exercises. -/
def calculate_single_plan_cost (start_time end_time : DateTime)
    (plan_options : PlanOptions) : ℚ :=
  match plan_options.shape with
  | .timeBanded pricingGroups =>
    let pricing_rules := pricingGroups.headD []
    let quantity_type := plan_options.quantityType.getD "MINUTE"
    let temp_total_minutes := start_time.time.totalMinutes
    let price_per_unit := findPricePerUnit temp_total_minutes pricing_rules
    let duration_seconds := durationSeconds start_time end_time
    convertUnits quantity_type duration_seconds * price_per_unit
  | .tiered price_tiers =>
    let quantity_type := plan_options.quantityType.getD "SECOND"
    let duration_seconds := durationSeconds start_time end_time
    let total_units := convertUnits quantity_type duration_seconds
    calculate_tiered_cost total_units price_tiers
  | .unknown => 0

/-- Loop body of calculate_total_charging_cost (identical in both files):
option_name = plan_options.get("optionName", "").lower(); a name containing
"blocking" (or the then-redundant "blocking-time") overwrites the blocking
cost, elif a name containing "charging" (or "charging-time") overwrites the
charging cost; other plans leave the accumulator unchanged.  The cost
function of the respective file is passed in as cost. -/
def classStep (cost : PlanOptions → ℚ) (acc : ℚ × ℚ)
    (entry : String × PlanOptions) : ℚ × ℚ :=
  let option_name := strLower (entry.2.optionName.getD "")
  if strContainsSub option_name "blocking" || strContainsSub option_name "blocking-time" then
    (cost entry.2, acc.2)
  else if strContainsSub option_name "charging" || strContainsSub option_name "charging-time" then
    (acc.1, cost entry.2)
  else acc

/-- pricing_calculator.calculate_total_charging_cost: scans the
(option_ident, plan_options) pairs, assigning blocking_cost and
charging_cost as classStep does with this file's
calculate_single_plan_cost, and returns blocking_cost + charging_cost. -/
def calculate_total_charging_cost (start_time end_time : DateTime)
    (all_plan_options : List (String × PlanOptions)) : ℚ :=
  let costs := all_plan_options.foldl
    (classStep (calculate_single_plan_cost start_time end_time)) (0, 0)
  costs.1 + costs.2

end Pricing

namespace Rfid

/-- read_rfid.calculate_single_plan_cost.  The time-banded branch is the
same as in pricing_calculator.  The "priceTiers" branch here does NOT run
the tiered calculator: it takes price_tiers[-1]["price"] as a flat
price_per_unit (0.0 when the tier list is empty; the source comments "For
now, use the last tier's price") and multiplies it by the converted
duration.  Unknown shapes (and falsy plan_options) cost 0.0. -/
def calculate_single_plan_cost (start_time end_time : DateTime)
    (plan_options : PlanOptions) : ℚ :=
  match plan_options.shape with
  | .timeBanded pricingGroups =>
    let pricing_rules := pricingGroups.headD []
    let quantity_type := plan_options.quantityType.getD "MINUTE"
    let temp_total_minutes := start_time.time.totalMinutes
    let price_per_unit := findPricePerUnit temp_total_minutes pricing_rules
    convertUnits quantity_type (durationSeconds start_time end_time) * price_per_unit
  | .tiered price_tiers =>
    let quantity_type := plan_options.quantityType.getD "SECOND"
    let price_per_unit :=
      match price_tiers.getLast? with
      | some tier => tier.price
      | none => 0
    convertUnits quantity_type (durationSeconds start_time end_time) * price_per_unit
  | .unknown => 0

/-- read_rfid.calculate_total_charging_cost: textually identical to the
pricing_calculator aggregator but dispatching to this file's
calculate_single_plan_cost. -/
def calculate_total_charging_cost (start_time end_time : DateTime)
    (all_plan_options : List (String × PlanOptions)) : ℚ :=
  let costs := all_plan_options.foldl
    (Pricing.classStep (calculate_single_plan_cost start_time end_time)) (0, 0)
  costs.1 + costs.2

/-- The module-level session state of read_rfid.py: charging_active,
charging_session_start, current_plan_options (written only when a session
ends), and all_stored_plan_options. -/
structure SessionState where
  charging_active : Bool
  charging_session_start : Option DateTime
  current_plan_options : Option PlanOptions
  all_stored_plan_options : List (String × PlanOptions)
deriving DecidableEq, Repr

/-- The environment of one accepted credential event: datetime.now(), the
tag, and the outcomes of the collaborator calls the transition makes.
fetched_plan_options are the (option_ident, plan_options) pairs the
parallel fetch would deliver in thread-completion order; usage_ok /
billing_ok are the outcomes create_nitrobox_usage /
create_nitrobox_billing_run would report.  The last four fields turn out
to be unreachable in the source: both code paths that would consume them
raise a TypeError first (see set_charging_state below). -/
structure StepInput where
  now : DateTime
  tag_id : ℕ
  bearer_token_ok : Bool
  option_idents : List String
  fetched_plan_options : List (String × PlanOptions)
  usage_ok : Bool
  billing_ok : Bool
deriving DecidableEq, Repr

/-- The fully cleared session state written at the end of every ending
branch of set_charging_state that completes. -/
def clearedState : SessionState :=
  { charging_active := false
    charging_session_start := none
    current_plan_options := none
    all_stored_plan_options := [] }

/-- read_rfid.set_charging_state as a transition on the module-level
session state; none models the process dying on an uncaught exception.

Ending branch (charging_active): the event emission is wrapped in
try/except, display and cost calculation have no state effect, so the
state outcome is: with no recorded start time, or with a failed bearer
token fetch, all four variables are cleared; but when a start time is
recorded and the token fetch succeeds, the source calls
create_nitrobox_usage(tag_id=..., charging_start_time=...,
charging_end_time=..., bearer_token=..., customer_info=...) omitting the
required product_ident parameter, so Python raises TypeError before the
clearing assignments run - modelled as none.

Starting branch (not charging_active): charging_session_start := now and
charging_active := True are set first.  When the token fetch fails, the
plan-option block is skipped and the function returns with the other two
variables untouched.  When the token fetch succeeds, the source assigns
option_idents = get_option_idents_from_contract(...) WITHOUT awaiting it
although that function is declared async, so option_idents is a coroutine
object: it passes the truthiness test, and len(option_idents) in the
ThreadPoolExecutor max_workers computation then raises TypeError - the
process dies (none) before any plan options are fetched or stored.
NitroboxConfig.from_env() itself cannot raise at this point, because
fetch_bearer_token already calls it and returns None on its RuntimeError,
so bearer_token_ok implies the configuration is present. -/
def set_charging_state (s : SessionState) (i : StepInput) : Option SessionState :=
  if s.charging_active then
    match s.charging_session_start with
    | some _ =>
      if i.bearer_token_ok then
        none
      else some clearedState
    | none => some clearedState
  else
    if i.bearer_token_ok then
      none
    else
      some { charging_active := true
             charging_session_start := some i.now
             current_plan_options := s.current_plan_options
             all_stored_plan_options := s.all_stored_plan_options }

end Rfid

/-- The hour/minute boundary data and amount of a rule: everything the
resolver ever reads from it (the seconds components are parsed away). -/
def ruleHM (r : PricingRule) : ℕ × ℕ × ℕ × ℕ × ℚ :=
  (r.timePeriod.start.hour, r.timePeriod.start.minute,
   r.timePeriod.end_.hour, r.timePeriod.end_.minute, r.amount)

/-- The spec's matching predicate for one rule, stated declaratively: a
band with start ≤ end matches the half-open minute interval
[start, end); a band with start > end matches instants at/after start or
before end. -/
def claimRuleMatches (rule : PricingRule) (m : ℕ) : Prop :=
  let s := rule.timePeriod.start.totalMinutes
  let e := rule.timePeriod.end_.totalMinutes
  (s ≤ e ∧ s ≤ m ∧ m < e) ∨ (e < s ∧ (m ≥ s ∨ m < e))

/-- Cost of the last entry of a list of classified plans, with a default
for the empty list: the value a repeatedly overwritten cost variable holds
after a scan. -/
def lastCostD (cost : PlanOptions → ℚ) (dflt : ℚ) : List (String × PlanOptions) → ℚ
  | [] => dflt
  | e :: l => lastCostD cost (cost e.2) l

/-- The condition under which the aggregator loop treats an entry as the
blocking plan: its lower-cased optionName contains "blocking" (the
"blocking-time" disjunct of the source is subsumed but kept). -/
def isBlockingEntry (e : String × PlanOptions) : Bool :=
  let option_name := strLower (e.2.optionName.getD "")
  strContainsSub option_name "blocking" || strContainsSub option_name "blocking-time"

/-- The condition under which the aggregator loop treats an entry as the
charging plan: not classified blocking (elif), and its lower-cased
optionName contains "charging". -/
def isChargingEntry (e : String × PlanOptions) : Bool :=
  let option_name := strLower (e.2.optionName.getD "")
  !(strContainsSub option_name "blocking" || strContainsSub option_name "blocking-time") &&
    (strContainsSub option_name "charging" || strContainsSub option_name "charging-time")

/-- Modelled from the spec's words, for comparison with the source
aggregator: a plan is in the blocking class when its name or option-name
contains the substring "block" or "blocking" (case-insensitively). -/
def claimIsBlocking (p : PlanOptions) : Bool :=
  strContainsSub (strLower (p.optionName.getD "")) "block" ||
  strContainsSub (strLower (p.name.getD "")) "block" ||
  strContainsSub (strLower (p.optionName.getD "")) "blocking" ||
  strContainsSub (strLower (p.name.getD "")) "blocking"

/-- Modelled from the spec's words: a plan not in the blocking class is in
the charging class when its name or option-name contains "charging". -/
def claimIsCharging (p : PlanOptions) : Bool :=
  !(claimIsBlocking p) &&
    (strContainsSub (strLower (p.optionName.getD "")) "charging" ||
     strContainsSub (strLower (p.name.getD "")) "charging")

/-- Modelled from the spec's words (Total Cost Aggregator of claim C5):
classify each plan by scanning its name/option-name for "block"/"blocking"
or "charging", price each class with the Plan Cost Resolver, ignore the
rest, and return blockingCost + chargingCost. -/
def claim_total_charging_cost (start_time end_time : DateTime)
    (plans : List (String × PlanOptions)) : ℚ :=
  lastCostD (Pricing.calculate_single_plan_cost start_time end_time) 0
      (plans.filter fun e => claimIsBlocking e.2) +
    lastCostD (Pricing.calculate_single_plan_cost start_time end_time) 0
      (plans.filter fun e => claimIsCharging e.2)

/-! Helper lemmas. -/

theorem tieredLoop_nil (u : ℚ) : Pricing.tieredLoop u [] = 0 := rfl

theorem tieredLoop_nonpos {u : ℚ} (h : u ≤ 0) (tiers : List Tier) :
    Pricing.tieredLoop u tiers = 0 := by
  cases tiers with
  | nil => rfl
  | cons t rest => simp [Pricing.tieredLoop, h]

theorem tieredLoop_cons_cons (u : ℚ) (t1 t2 : Tier) (rest : List Tier) :
    Pricing.tieredLoop u (t1 :: t2 :: rest) =
      if u ≤ 0 then 0
      else min u t1.quantity * t1.price +
        Pricing.tieredLoop (u - min u t1.quantity) (t2 :: rest) := rfl

theorem tieredLoop_singleton (u : ℚ) (t : Tier) :
    Pricing.tieredLoop u [t] = if u ≤ 0 then 0 else u * t.price := by
  by_cases h : u ≤ 0
  · simp [Pricing.tieredLoop, h]
  · simp only [Pricing.tieredLoop, h, if_false]
    rcases le_total u t.quantity with hq | hq
    · rw [min_eq_left hq]
      simp
    · rw [min_eq_right hq]
      by_cases h2 : 0 < u - t.quantity
      · rw [if_pos h2]
        ring
      · have hu : u = t.quantity := by
          have := not_lt.mp h2
          linarith
        rw [if_neg h2, hu, add_zero]

theorem tieredLoop_nonneg (tiers : List Tier) :
    (∀ t ∈ tiers, 0 ≤ t.quantity ∧ 0 ≤ t.price) →
    ∀ u : ℚ, 0 ≤ Pricing.tieredLoop u tiers := by
  induction tiers with
  | nil =>
    intro _ u
    simp [tieredLoop_nil]
  | cons t rest ih =>
    intro h u
    by_cases hu : u ≤ 0
    · rw [tieredLoop_nonpos hu]
    · push_neg at hu
      obtain ⟨hq, hp⟩ := h t (List.mem_cons_self t rest)
      have hmin : 0 ≤ min u t.quantity := le_min hu.le hq
      cases rest with
      | nil =>
        rw [tieredLoop_singleton, if_neg (not_le.mpr hu)]
        exact mul_nonneg hu.le hp
      | cons t2 rest2 =>
        rw [tieredLoop_cons_cons, if_neg (not_le.mpr hu)]
        have h1 : 0 ≤ min u t.quantity * t.price := mul_nonneg hmin hp
        have h2 := ih (fun x hx => h x (List.mem_cons_of_mem t hx)) (u - min u t.quantity)
        linarith

theorem tieredLoop_mono (tiers : List Tier) :
    (∀ t ∈ tiers, 0 ≤ t.quantity ∧ 0 ≤ t.price) →
    ∀ u1 u2 : ℚ, u1 ≤ u2 →
    Pricing.tieredLoop u1 tiers ≤ Pricing.tieredLoop u2 tiers := by
  induction tiers with
  | nil =>
    intro _ u1 u2 _
    simp [tieredLoop_nil]
  | cons t rest ih =>
    intro h u1 u2 hu
    by_cases h1 : u1 ≤ 0
    · rw [tieredLoop_nonpos h1]
      exact tieredLoop_nonneg (t :: rest) h u2
    · have h2 : ¬ u2 ≤ 0 := fun hx => h1 (le_trans hu hx)
      obtain ⟨hq, hp⟩ := h t (List.mem_cons_self t rest)
      have hmin : min u1 t.quantity ≤ min u2 t.quantity := min_le_min hu le_rfl
      have hrem : u1 - min u1 t.quantity ≤ u2 - min u2 t.quantity := by
        rcases le_total u1 t.quantity with a | a
        · rw [min_eq_left a]
          have := min_le_left u2 t.quantity
          linarith
        · rw [min_eq_right a, min_eq_right (le_trans a hu)]
          linarith
      cases rest with
      | nil =>
        rw [tieredLoop_singleton, tieredLoop_singleton, if_neg h1, if_neg h2]
        exact mul_le_mul_of_nonneg_right hu hp
      | cons t2 rest2 =>
        rw [tieredLoop_cons_cons, tieredLoop_cons_cons, if_neg h1, if_neg h2]
        have hcost : min u1 t.quantity * t.price ≤ min u2 t.quantity * t.price :=
          mul_le_mul_of_nonneg_right hmin hp
        have hrest := ih (fun x hx => h x (List.mem_cons_of_mem t hx)) _ _ hrem
        exact add_le_add hcost hrest

theorem findPricePerUnit_eq_find (m : ℕ) (rules : List PricingRule) :
    findPricePerUnit m rules =
      ((rules.find? fun r => ruleMatches r m).map PricingRule.amount).getD 0 := by
  induction rules with
  | nil => rfl
  | cons r rest ih =>
    by_cases h : ruleMatches r m = true
    · simp [findPricePerUnit, h, List.find?_cons_of_pos]
    · simp only [findPricePerUnit]
      rw [if_neg h, ih, List.find?_cons_of_neg _ (by simpa using h)]

theorem ruleHM_fields {r r' : PricingRule} (h : ruleHM r = ruleHM r') :
    r.timePeriod.start.hour = r'.timePeriod.start.hour ∧
    r.timePeriod.start.minute = r'.timePeriod.start.minute ∧
    r.timePeriod.end_.hour = r'.timePeriod.end_.hour ∧
    r.timePeriod.end_.minute = r'.timePeriod.end_.minute ∧
    r.amount = r'.amount := by
  simpa [ruleHM, Prod.ext_iff] using h

theorem ruleMatches_congr {r r' : PricingRule} (h : ruleHM r = ruleHM r') (m : ℕ) :
    ruleMatches r m = ruleMatches r' m := by
  obtain ⟨h1, h2, h3, h4, _⟩ := ruleHM_fields h
  simp [ruleMatches, TimeOfDay.totalMinutes, h1, h2, h3, h4]

theorem findPricePerUnit_congr (rules : List PricingRule) :
    ∀ rules' : List PricingRule, rules.map ruleHM = rules'.map ruleHM →
    ∀ m : ℕ, findPricePerUnit m rules = findPricePerUnit m rules' := by
  induction rules with
  | nil =>
    intro rules' h m
    cases rules' with
    | nil => rfl
    | cons r' rest' => simp at h
  | cons r rest ih =>
    intro rules' h m
    cases rules' with
    | nil => simp at h
    | cons r' rest' =>
      simp only [List.map_cons, List.cons.injEq] at h
      obtain ⟨hr, hrest⟩ := h
      obtain ⟨_, _, _, _, h5⟩ := ruleHM_fields hr
      simp [findPricePerUnit, ruleMatches_congr hr m, h5, ih rest' hrest m]

theorem timeLoop_congr (rules : List PricingRule) :
    ∀ rules' : List PricingRule, rules.map ruleHM = rules'.map ruleHM →
    ∀ m : ℕ,
    Pricing.get_current_time_based_pricing.loop rules m =
      Pricing.get_current_time_based_pricing.loop rules' m := by
  induction rules with
  | nil =>
    intro rules' h m
    cases rules' with
    | nil => rfl
    | cons r' rest' => simp at h
  | cons r rest ih =>
    intro rules' h m
    cases rules' with
    | nil => simp at h
    | cons r' rest' =>
      simp only [List.map_cons, List.cons.injEq] at h
      obtain ⟨hr, hrest⟩ := h
      obtain ⟨h1, h2, h3, h4, h5⟩ := ruleHM_fields hr
      simp only [Pricing.get_current_time_based_pricing.loop, h1, h2, h3, h4, h5,
        ih rest' hrest m]

theorem timeLoop_price (rules : List PricingRule) (m : ℕ) :
    (Pricing.get_current_time_based_pricing.loop rules m).map (fun x => x.1) =
      (rules.find? fun r => ruleMatches r m).map PricingRule.amount := by
  induction rules with
  | nil => rfl
  | cons r rest ih =>
    simp only [Pricing.get_current_time_based_pricing.loop]
    by_cases hse : r.timePeriod.start.hour * 60 + r.timePeriod.start.minute ≤
        r.timePeriod.end_.hour * 60 + r.timePeriod.end_.minute
    · by_cases hm : r.timePeriod.start.hour * 60 + r.timePeriod.start.minute ≤ m ∧
          m < r.timePeriod.end_.hour * 60 + r.timePeriod.end_.minute
      · have hmatch : ruleMatches r m = true := by
          simp only [ruleMatches, TimeOfDay.totalMinutes, if_pos hse]
          simpa using hm
        rw [if_pos hse, if_pos hm,
          show List.find? (fun r => ruleMatches r m) (r :: rest) = some r from
            List.find?_cons_of_pos rest hmatch]
        simp
      · have hmatch : ¬ (ruleMatches r m = true) := by
          simp only [ruleMatches, TimeOfDay.totalMinutes, if_pos hse]
          simpa using hm
        rw [if_pos hse, if_neg hm, List.find?_cons_of_neg _ (by simpa using hmatch)]
        exact ih
    · by_cases hm : m ≥ r.timePeriod.start.hour * 60 + r.timePeriod.start.minute ∨
          m < r.timePeriod.end_.hour * 60 + r.timePeriod.end_.minute
      · have hmatch : ruleMatches r m = true := by
          simp only [ruleMatches, TimeOfDay.totalMinutes, if_neg hse]
          simpa using hm
        rw [if_neg hse, if_pos hm,
          show List.find? (fun r => ruleMatches r m) (r :: rest) = some r from
            List.find?_cons_of_pos rest hmatch]
        simp
      · have hmatch : ¬ (ruleMatches r m = true) := by
          simp only [ruleMatches, TimeOfDay.totalMinutes, if_neg hse]
          simpa using hm
        rw [if_neg hse, if_neg hm, List.find?_cons_of_neg _ (by simpa using hmatch)]
        exact ih

theorem foldl_classStep (cost : PlanOptions → ℚ) (l : List (String × PlanOptions)) :
    ∀ a b : ℚ, l.foldl (Pricing.classStep cost) (a, b) =
      (lastCostD cost a (l.filter isBlockingEntry),
       lastCostD cost b (l.filter isChargingEntry)) := by
  induction l with
  | nil =>
    intro a b
    simp [lastCostD]
  | cons e l ih =>
    intro a b
    simp only [List.foldl_cons, List.filter_cons]
    by_cases hb : (strContainsSub (strLower (e.2.optionName.getD "")) "blocking" ||
        strContainsSub (strLower (e.2.optionName.getD "")) "blocking-time") = true
    · have h1 : isBlockingEntry e = true := by
        simp only [isBlockingEntry]
        exact hb
      have h2 : isChargingEntry e = false := by
        simp only [isChargingEntry, hb]
        simp
      have hstep : Pricing.classStep cost (a, b) e = (cost e.2, b) := by
        simp only [Pricing.classStep]
        rw [if_pos hb]
      rw [hstep, ih, h1, h2]
      simp [lastCostD]
    · by_cases hc : (strContainsSub (strLower (e.2.optionName.getD "")) "charging" ||
          strContainsSub (strLower (e.2.optionName.getD "")) "charging-time") = true
      · have h1 : isBlockingEntry e = false := by
          simp only [isBlockingEntry]
          simpa using hb
        have h2 : isChargingEntry e = true := by
          simp only [isChargingEntry]
          rw [Bool.and_eq_true]
          constructor
          · simpa using hb
          · exact hc
        have hstep : Pricing.classStep cost (a, b) e = (a, cost e.2) := by
          simp only [Pricing.classStep]
          rw [if_neg hb, if_pos hc]
        rw [hstep, ih, h1, h2]
        simp [lastCostD]
      · have h1 : isBlockingEntry e = false := by
          simp only [isBlockingEntry]
          simpa using hb
        have h2 : isChargingEntry e = false := by
          simp only [isChargingEntry]
          rw [Bool.and_eq_false_iff]
          right
          simpa using hc
        have hstep : Pricing.classStep cost (a, b) e = (a, b) := by
          simp only [Pricing.classStep]
          rw [if_neg hb, if_neg hc]
        rw [hstep, ih, h1, h2]
        simp

/-! Claim theorems. -/

/-- C2: pricing_calculator.calculate_tiered_cost consumes tiers in list
order (consumed = min(remaining, quantity), cost += consumed * unitPrice,
remaining -= consumed, stopping once nothing remains), additionally bills
any remainder left after the last tier's stated quantity entirely at the
last tier's unitPrice, returns 0 for an empty tier list and for zero
units, and on tiers [(5, 0.00), (1, 0.01)] yields exactly 0.00, 0.00,
0.02, 0.05, 0.10 for 3, 5, 7, 10, 15 units. -/
theorem c2_tiered_cost_algorithm :
    (∀ u : ℚ, Pricing.calculate_tiered_cost u [] = 0) ∧
    (∀ tiers : List Tier, Pricing.calculate_tiered_cost 0 tiers = 0) ∧
    (∀ (u : ℚ) (t : Tier),
      Pricing.calculate_tiered_cost u [t] =
        if u ≤ 0 then 0
        else min u t.quantity * t.price +
          (if 0 < u - min u t.quantity then (u - min u t.quantity) * t.price else 0)) ∧
    (∀ (u : ℚ) (t1 t2 : Tier) (rest : List Tier),
      Pricing.calculate_tiered_cost u (t1 :: t2 :: rest) =
        if u ≤ 0 then 0
        else min u t1.quantity * t1.price +
          Pricing.calculate_tiered_cost (u - min u t1.quantity) (t2 :: rest)) ∧
    Pricing.calculate_tiered_cost 3 [⟨5, 0⟩, ⟨1, 1/100⟩] = 0 ∧
    Pricing.calculate_tiered_cost 5 [⟨5, 0⟩, ⟨1, 1/100⟩] = 0 ∧
    Pricing.calculate_tiered_cost 7 [⟨5, 0⟩, ⟨1, 1/100⟩] = 2/100 ∧
    Pricing.calculate_tiered_cost 10 [⟨5, 0⟩, ⟨1, 1/100⟩] = 5/100 ∧
    Pricing.calculate_tiered_cost 15 [⟨5, 0⟩, ⟨1, 1/100⟩] = 10/100 := by
  refine ⟨fun u => rfl, ?_, fun u t => rfl, ?_, ?_, ?_, ?_, ?_, ?_⟩
  · intro tiers
    cases tiers with
    | nil => rfl
    | cons t rest => simp [Pricing.calculate_tiered_cost, tieredLoop_nonpos le_rfl]
  · intro u t1 t2 rest
    simp [Pricing.calculate_tiered_cost, tieredLoop_cons_cons]
  all_goals norm_num [Pricing.calculate_tiered_cost, Pricing.tieredLoop, min_def]

/-- C6 counterexample: the claim quantifies over every non-empty tier
list, but with the single tier (quantity 5, unitPrice -1) and
0 = u1 ≤ u2 = 5 the cost falls from 0 to -5, so tieredCost is not
monotonically non-decreasing for every tier list. -/
theorem c6_counterexample :
    ¬ (Pricing.calculate_tiered_cost 0 [⟨5, -1⟩] ≤
        Pricing.calculate_tiered_cost 5 [⟨5, -1⟩]) := by
  norm_num [Pricing.calculate_tiered_cost, Pricing.tieredLoop, min_def]

/-- C6 amended: for every non-empty tier list whose quantities and unit
prices are all non-negative, and all 0 ≤ u1 ≤ u2, the tiered cost at u1
is at most the tiered cost at u2. -/
theorem c6_tiered_cost_monotone (tiers : List Tier) (hne : tiers ≠ [])
    (h : ∀ t ∈ tiers, 0 ≤ t.quantity ∧ 0 ≤ t.price)
    (u1 u2 : ℚ) (h0 : 0 ≤ u1) (h12 : u1 ≤ u2) :
    Pricing.calculate_tiered_cost u1 tiers ≤ Pricing.calculate_tiered_cost u2 tiers := by
  obtain ⟨t, rest, rfl⟩ := List.exists_cons_of_ne_nil hne
  simp only [Pricing.calculate_tiered_cost, List.isEmpty_cons, Bool.false_eq_true,
    if_false]
  exact tieredLoop_mono (t :: rest) h u1 u2 h12

/-- Witness for c6_tiered_cost_monotone at tiers [(5, 0), (1, 1/100)],
u1 = 3, u2 = 7. -/
theorem c6_tiered_cost_monotone_witness :
    Pricing.calculate_tiered_cost 3 [⟨5, 0⟩, ⟨1, 1/100⟩] ≤
      Pricing.calculate_tiered_cost 7 [⟨5, 0⟩, ⟨1, 1/100⟩] :=
  c6_tiered_cost_monotone [⟨5, 0⟩, ⟨1, 1/100⟩] (by decide)
    (by norm_num) 3 7 (by norm_num) (by norm_num)

/-- C1 counterexample: for the tiered plan with tiers [(5, 0), (1, 0.01)],
quantityType SECOND, and a 10-second session, read_rfid's
calculate_single_plan_cost returns 10 * 0.01 = 0.10, not the Tiered Cost
Calculator's 0.05, so the claim fails for the read_rfid.py implementation
used on session close. -/
theorem c1_counterexample :
    Rfid.calculate_single_plan_cost ⟨0, ⟨8, 0, 0⟩⟩ ⟨0, ⟨8, 0, 10⟩⟩
        ⟨some "Charging Fee", none, some "SECOND", .tiered [⟨5, 0⟩, ⟨1, 1/100⟩]⟩ ≠
      Pricing.calculate_tiered_cost
        (convertUnits "SECOND" (durationSeconds ⟨0, ⟨8, 0, 0⟩⟩ ⟨0, ⟨8, 0, 10⟩⟩))
        [⟨5, 0⟩, ⟨1, 1/100⟩] := by
  have hs : strUpper "SECOND" = "SECOND" := by decide
  have hd : durationSeconds (⟨0, ⟨8, 0, 0⟩⟩ : DateTime) ⟨0, ⟨8, 0, 10⟩⟩ = 10 := by
    norm_num [durationSeconds, DateTime.toSeconds]
  norm_num [Rfid.calculate_single_plan_cost, Pricing.calculate_tiered_cost,
    Pricing.tieredLoop, convertUnits, hs, hd, min_def]

/-- C1 corrected: for every tiered plan (shape priceTiers) the
pricing_calculator.py implementation converts the duration into the plan's
quantityType units (SECOND raw, MINUTE /60, HOUR /3600, an unrecognized
type such as KILOWATT_HOUR treated as seconds; quantityType defaults to
SECOND) and returns exactly the Tiered Cost Calculator's result on that
unit total and the tier list, while the read_rfid.py implementation used
on session close instead bills the whole unit total flat at the last
tier's unitPrice (0 with no tiers). -/
theorem c1_tiered_plan_cost (start_time end_time : DateTime)
    (optionName name qt : Option String) (tiers : List Tier) :
    Pricing.calculate_single_plan_cost start_time end_time
        ⟨optionName, name, qt, .tiered tiers⟩ =
      Pricing.calculate_tiered_cost
        (convertUnits (qt.getD "SECOND") (durationSeconds start_time end_time)) tiers ∧
    Rfid.calculate_single_plan_cost start_time end_time
        ⟨optionName, name, qt, .tiered tiers⟩ =
      convertUnits (qt.getD "SECOND") (durationSeconds start_time end_time) *
        (tiers.getLast?.elim 0 Tier.price) ∧
    (∀ d : ℚ, convertUnits "SECOND" d = d) ∧
    (∀ d : ℚ, convertUnits "MINUTE" d = d / 60) ∧
    (∀ d : ℚ, convertUnits "HOUR" d = d / 3600) ∧
    (∀ d : ℚ, convertUnits "KILOWATT_HOUR" d = d) := by
  refine ⟨rfl, ?_, ?_, ?_, ?_, ?_⟩
  · cases h : tiers.getLast? with
    | none => simp [Rfid.calculate_single_plan_cost, h]
    | some t => simp [Rfid.calculate_single_plan_cost, h]
  · intro d
    simp only [convertUnits]
    rw [if_pos (by decide)]
  · intro d
    simp only [convertUnits]
    rw [if_neg (by decide), if_pos (by decide)]
  · intro d
    simp only [convertUnits]
    rw [if_neg (by decide), if_neg (by decide), if_pos (by decide)]
  · intro d
    simp only [convertUnits]
    rw [if_neg (by decide), if_neg (by decide), if_neg (by decide)]

theorem convertUnits_SECOND (d : ℚ) : convertUnits "SECOND" d = d := by
  simp only [convertUnits]
  rw [if_pos (by decide)]

theorem convertUnits_MINUTE (d : ℚ) : convertUnits "MINUTE" d = d / 60 := by
  simp only [convertUnits]
  rw [if_neg (by decide), if_pos (by decide)]

theorem timeBanded_cost_eq (start_time end_time : DateTime)
    (optionName name qt : Option String) (groups : List (List PricingRule)) :
    Pricing.calculate_single_plan_cost start_time end_time
        ⟨optionName, name, qt, .timeBanded groups⟩ =
      convertUnits (qt.getD "MINUTE") (durationSeconds start_time end_time) *
        findPricePerUnit start_time.time.totalMinutes (groups.headD []) := rfl

/-- C3: the rule resolver of calculate_single_plan_cost returns the amount
of the first rule matching the instant (0.0 fallback when none matches),
get_current_time_based_pricing likewise surfaces the first matching rule's
amount and None when none matches, the per-rule matching condition is the
half-open [start, end) minute interval for start ≤ end and the wraparound
disjunction instant ≥ start or instant < end for start > end, and the rule
22:00-08:00 matches 23:30 and 02:00 but not 10:00. -/
theorem c3_rule_resolver :
    (∀ (rules : List PricingRule) (m : ℕ),
      findPricePerUnit m rules =
        ((rules.find? fun r => ruleMatches r m).map PricingRule.amount).getD 0) ∧
    (∀ (rules : List PricingRule) (t : TimeOfDay),
      (Pricing.get_current_time_based_pricing rules t).map (fun x => x.1) =
        (rules.find? fun r => ruleMatches r t.totalMinutes).map PricingRule.amount) ∧
    (∀ (r : PricingRule) (m : ℕ), ruleMatches r m = true ↔ claimRuleMatches r m) ∧
    ruleMatches ⟨⟨⟨22, 0, 0⟩, ⟨8, 0, 0⟩⟩, 0⟩ (TimeOfDay.totalMinutes ⟨23, 30, 0⟩) = true ∧
    ruleMatches ⟨⟨⟨22, 0, 0⟩, ⟨8, 0, 0⟩⟩, 0⟩ (TimeOfDay.totalMinutes ⟨2, 0, 0⟩) = true ∧
    ruleMatches ⟨⟨⟨22, 0, 0⟩, ⟨8, 0, 0⟩⟩, 0⟩ (TimeOfDay.totalMinutes ⟨10, 0, 0⟩) = false ∧
    (Pricing.get_current_time_based_pricing [⟨⟨⟨22, 0, 0⟩, ⟨8, 0, 0⟩⟩, 0⟩]
      ⟨23, 30, 0⟩).isSome = true ∧
    (Pricing.get_current_time_based_pricing [⟨⟨⟨22, 0, 0⟩, ⟨8, 0, 0⟩⟩, 0⟩]
      ⟨2, 0, 0⟩).isSome = true ∧
    Pricing.get_current_time_based_pricing [⟨⟨⟨22, 0, 0⟩, ⟨8, 0, 0⟩⟩, 0⟩]
      ⟨10, 0, 0⟩ = none := by
  refine ⟨fun rules m => findPricePerUnit_eq_find m rules,
    fun rules t => timeLoop_price rules t.totalMinutes, ?_,
    by decide, by decide, by decide, by decide, by decide, by decide⟩
  intro r m
  by_cases h : r.timePeriod.start.totalMinutes ≤ r.timePeriod.end_.totalMinutes
  · simp only [ruleMatches, claimRuleMatches, if_pos h, decide_eq_true_eq]
    omega
  · simp only [ruleMatches, claimRuleMatches, if_neg h, decide_eq_true_eq]
    omega

/-- C4: for every time-banded plan (shape pricingGroups) the cost is the
duration converted into quantityType units (default MINUTE) times the
amount of the first rule of pricingGroups[0] matching the time of day of
the start timestamp only (0 when no rule matches, reported as a
condition); a MINUTE plan from 08:00:00 to 08:10:00 at rate 0.10 costs
exactly 1.00, and a session from 21:55 to 23:55 that crosses the 22:00
band boundary is still billed entirely at the 21:55 rate. -/
theorem c4_time_banded_plan_cost :
    (∀ (start_time end_time : DateTime) (optionName name qt : Option String)
        (groups : List (List PricingRule)),
      Pricing.calculate_single_plan_cost start_time end_time
          ⟨optionName, name, qt, .timeBanded groups⟩ =
        convertUnits (qt.getD "MINUTE") (durationSeconds start_time end_time) *
          ((((groups.headD []).find? fun r =>
            ruleMatches r start_time.time.totalMinutes).map PricingRule.amount).getD 0)) ∧
    Pricing.calculate_single_plan_cost ⟨0, ⟨8, 0, 0⟩⟩ ⟨0, ⟨8, 10, 0⟩⟩
        ⟨some "Blocking Fee", none, some "MINUTE",
          .timeBanded [[⟨⟨⟨8, 0, 0⟩, ⟨22, 0, 0⟩⟩, 1/10⟩]]⟩ = 1 ∧
    Pricing.calculate_single_plan_cost ⟨0, ⟨21, 55, 0⟩⟩ ⟨0, ⟨23, 55, 0⟩⟩
        ⟨some "Blocking Fee", none, some "MINUTE",
          .timeBanded [[⟨⟨⟨8, 0, 0⟩, ⟨22, 0, 0⟩⟩, 1/10⟩,
            ⟨⟨⟨22, 0, 0⟩, ⟨8, 0, 0⟩⟩, 9/10⟩]]⟩ = 12 := by
  refine ⟨?_, ?_, ?_⟩
  · intro start_time end_time optionName name qt groups
    rw [timeBanded_cost_eq, findPricePerUnit_eq_find]
  · rw [timeBanded_cost_eq]
    norm_num [convertUnits_MINUTE, durationSeconds, DateTime.toSeconds,
      findPricePerUnit, ruleMatches, TimeOfDay.totalMinutes]
  · rw [timeBanded_cost_eq]
    norm_num [convertUnits_MINUTE, durationSeconds, DateTime.toSeconds,
      findPricePerUnit, ruleMatches, TimeOfDay.totalMinutes]

/-- C5 counterexample: a plan whose optionName is "Block Fee" contains the
substring "block" but not "blocking", so under the claim's classification
(scanning name/option-name for "block"/"blocking") it is a blocking plan
and its Plan Cost Resolver price (10.00 here) is the total, but
calculate_total_charging_cost only scans optionName for "blocking" /
"charging", classifies the plan as neither, and returns 0. -/
theorem c5_counterexample :
    Pricing.calculate_total_charging_cost ⟨0, ⟨8, 0, 0⟩⟩ ⟨0, ⟨8, 0, 10⟩⟩
        [("opt", ⟨some "Block Fee", none, some "SECOND", .tiered [⟨1, 1⟩]⟩)] ≠
      claim_total_charging_cost ⟨0, ⟨8, 0, 0⟩⟩ ⟨0, ⟨8, 0, 10⟩⟩
        [("opt", ⟨some "Block Fee", none, some "SECOND", .tiered [⟨1, 1⟩]⟩)] := by
  have hb : isBlockingEntry
      ("opt", ⟨some "Block Fee", none, some "SECOND", .tiered [⟨1, 1⟩]⟩) = false := by
    decide
  have hc : isChargingEntry
      ("opt", ⟨some "Block Fee", none, some "SECOND", .tiered [⟨1, 1⟩]⟩) = false := by
    decide
  have hcb : claimIsBlocking
      (⟨some "Block Fee", none, some "SECOND", .tiered [⟨1, 1⟩]⟩ : PlanOptions) = true := by
    decide
  have hcc : claimIsCharging
      (⟨some "Block Fee", none, some "SECOND", .tiered [⟨1, 1⟩]⟩ : PlanOptions) = false := by
    decide
  have hd : durationSeconds (⟨0, ⟨8, 0, 0⟩⟩ : DateTime) ⟨0, ⟨8, 0, 10⟩⟩ = 10 := by
    norm_num [durationSeconds, DateTime.toSeconds]
  simp only [Pricing.calculate_total_charging_cost]
  rw [foldl_classStep]
  norm_num [claim_total_charging_cost, List.filter, hb, hc, hcb, hcc, lastCostD,
    Pricing.calculate_single_plan_cost, Pricing.calculate_tiered_cost, Pricing.tieredLoop,
    convertUnits_SECOND, hd, min_def]

/-- C5 corrected: both aggregators return blockingCost + chargingCost where
the blocking class is the set of plans whose lower-cased optionName (the
name field is not consulted) contains the substring "blocking" ("block"
alone does not match), the charging class is the set of remaining plans
whose lower-cased optionName contains "charging", each class's cost is the
Plan Cost Resolver price of that class's last listed plan (0 if the class
is empty), and plans matching neither class are ignored; one blocking plan
costing 1.00 plus one tiered charging plan costing 0.05 total exactly
1.05. -/
theorem c5_total_cost_amended :
    (∀ (start_time end_time : DateTime) (plans : List (String × PlanOptions)),
      Pricing.calculate_total_charging_cost start_time end_time plans =
        lastCostD (Pricing.calculate_single_plan_cost start_time end_time) 0
            (plans.filter isBlockingEntry) +
          lastCostD (Pricing.calculate_single_plan_cost start_time end_time) 0
            (plans.filter isChargingEntry) ∧
      Rfid.calculate_total_charging_cost start_time end_time plans =
        lastCostD (Rfid.calculate_single_plan_cost start_time end_time) 0
            (plans.filter isBlockingEntry) +
          lastCostD (Rfid.calculate_single_plan_cost start_time end_time) 0
            (plans.filter isChargingEntry)) ∧
    Pricing.calculate_total_charging_cost ⟨0, ⟨8, 0, 0⟩⟩ ⟨0, ⟨8, 0, 10⟩⟩
        [("blocking-opt", ⟨some "Blocking Fee", none, some "MINUTE",
            .timeBanded [[⟨⟨⟨8, 0, 0⟩, ⟨22, 0, 0⟩⟩, 6⟩]]⟩),
         ("charging-opt", ⟨some "Charging Fee", none, some "SECOND",
            .tiered [⟨5, 0⟩, ⟨1, 1/100⟩]⟩)] = 21/20 := by
  have hgen : ∀ (start_time end_time : DateTime) (plans : List (String × PlanOptions)),
      Pricing.calculate_total_charging_cost start_time end_time plans =
        lastCostD (Pricing.calculate_single_plan_cost start_time end_time) 0
            (plans.filter isBlockingEntry) +
          lastCostD (Pricing.calculate_single_plan_cost start_time end_time) 0
            (plans.filter isChargingEntry) ∧
      Rfid.calculate_total_charging_cost start_time end_time plans =
        lastCostD (Rfid.calculate_single_plan_cost start_time end_time) 0
            (plans.filter isBlockingEntry) +
          lastCostD (Rfid.calculate_single_plan_cost start_time end_time) 0
            (plans.filter isChargingEntry) := by
    intro start_time end_time plans
    constructor
    · simp only [Pricing.calculate_total_charging_cost]
      rw [foldl_classStep]
    · simp only [Rfid.calculate_total_charging_cost]
      rw [foldl_classStep]
  refine ⟨hgen, ?_⟩
  rw [(hgen _ _ _).1]
  have hb1 : isBlockingEntry ("blocking-opt", ⟨some "Blocking Fee", none, some "MINUTE",
      .timeBanded [[⟨⟨⟨8, 0, 0⟩, ⟨22, 0, 0⟩⟩, 6⟩]]⟩) = true := by decide
  have hb2 : isBlockingEntry ("charging-opt", ⟨some "Charging Fee", none, some "SECOND",
      .tiered [⟨5, 0⟩, ⟨1, 1/100⟩]⟩) = false := by decide
  have hc1 : isChargingEntry ("blocking-opt", ⟨some "Blocking Fee", none, some "MINUTE",
      .timeBanded [[⟨⟨⟨8, 0, 0⟩, ⟨22, 0, 0⟩⟩, 6⟩]]⟩) = false := by decide
  have hc2 : isChargingEntry ("charging-opt", ⟨some "Charging Fee", none, some "SECOND",
      .tiered [⟨5, 0⟩, ⟨1, 1/100⟩]⟩) = true := by decide
  have hd : durationSeconds (⟨0, ⟨8, 0, 0⟩⟩ : DateTime) ⟨0, ⟨8, 0, 10⟩⟩ = 10 := by
    norm_num [durationSeconds, DateTime.toSeconds]
  norm_num [List.filter, hb1, hb2, hc1, hc2, lastCostD,
    Pricing.calculate_single_plan_cost, Pricing.calculate_tiered_cost, Pricing.tieredLoop,
    findPricePerUnit, ruleMatches, TimeOfDay.totalMinutes, hd,
    convertUnits_MINUTE, convertUnits_SECOND, min_def]

/-- C7 (code bug): with an active session whose start time is recorded, an
accepted credential whose bearer-token fetch succeeds does not complete
the closing transition to IDLE: set_charging_state calls
create_nitrobox_usage without the required product_ident argument, so the
process dies on a TypeError (modelled as none) instead of returning to the
idle state.  An accepted credential while IDLE records charging_active
and startTime = now but then also crashes when the token fetch succeeds
(len() of the un-awaited get_option_idents_from_contract coroutine), and
only completes the transition to ACTIVE when the token fetch fails; no
branch ever creates a second session. -/
theorem c7_close_transition_crash :
    Rfid.set_charging_state
        ⟨true, some ⟨0, ⟨8, 0, 0⟩⟩, none, []⟩
        ⟨⟨0, ⟨9, 0, 0⟩⟩, 42, true, [], [], true, true⟩ = none ∧
    Rfid.set_charging_state
        ⟨false, none, none, []⟩
        ⟨⟨0, ⟨9, 0, 0⟩⟩, 42, false, [], [], true, true⟩ =
      some ⟨true, some ⟨0, ⟨9, 0, 0⟩⟩, none, []⟩ ∧
    Rfid.set_charging_state
        ⟨false, none, none, []⟩
        ⟨⟨0, ⟨9, 0, 0⟩⟩, 42, true, [], [], true, true⟩ = none := by
  exact ⟨rfl, rfl, rfl⟩

/-- C8 (code bug): when the bearer-token fetch fails at close, the session
state is fully cleared as the claim says; but when the token fetch
succeeds, the close never reaches the clearing assignments because the
create_nitrobox_usage call raises TypeError (required product_ident
argument missing), so the close is not atomic with respect to reporting:
the crash (none), not a cleared state, is the outcome. -/
theorem c8_close_state_clearing :
    Rfid.set_charging_state
        ⟨true, some ⟨1, ⟨10, 0, 0⟩⟩, none,
          [("o1", ⟨some "Blocking Fee", none, some "MINUTE", .unknown⟩)]⟩
        ⟨⟨1, ⟨11, 0, 0⟩⟩, 7, false, [], [], false, false⟩ =
      some Rfid.clearedState ∧
    Rfid.set_charging_state
        ⟨true, none, none,
          [("o1", ⟨some "Blocking Fee", none, some "MINUTE", .unknown⟩)]⟩
        ⟨⟨1, ⟨11, 0, 0⟩⟩, 7, true, [], [], false, false⟩ =
      some Rfid.clearedState ∧
    Rfid.set_charging_state
        ⟨true, some ⟨1, ⟨10, 0, 0⟩⟩, none,
          [("o1", ⟨some "Blocking Fee", none, some "MINUTE", .unknown⟩)]⟩
        ⟨⟨1, ⟨11, 0, 0⟩⟩, 7, true, [], [], false, false⟩ = none := by
  exact ⟨rfl, rfl, rfl⟩

/-- C9: the total cost aggregator is deterministic: the result of
calculate_total_charging_cost is a function of the (start, end, plans)
tuple alone, so two invocations on equal tuples return equal costs (in
the source the function reads only its arguments and writes only log
output). -/
theorem c9_total_cost_deterministic (s1 e1 : DateTime)
    (l1 : List (String × PlanOptions)) (s2 e2 : DateTime)
    (l2 : List (String × PlanOptions))
    (hs : s1 = s2) (he : e1 = e2) (hl : l1 = l2) :
    Pricing.calculate_total_charging_cost s1 e1 l1 =
      Pricing.calculate_total_charging_cost s2 e2 l2 := by
  rw [hs, he, hl]

/-- Witness for c9_total_cost_deterministic on a concrete repeated
invocation. -/
theorem c9_total_cost_deterministic_witness :
    Pricing.calculate_total_charging_cost ⟨0, ⟨8, 0, 0⟩⟩ ⟨0, ⟨9, 0, 0⟩⟩
        [("opt", ⟨some "Charging Fee", none, some "SECOND", .tiered [⟨5, 0⟩]⟩)] =
      Pricing.calculate_total_charging_cost ⟨0, ⟨8, 0, 0⟩⟩ ⟨0, ⟨9, 0, 0⟩⟩
        [("opt", ⟨some "Charging Fee", none, some "SECOND", .tiered [⟨5, 0⟩]⟩)] :=
  c9_total_cost_deterministic _ _ _ _ _ _ rfl rfl rfl

/-- C10: time-band matching has minute granularity: the rate loop of
calculate_single_plan_cost and the whole of get_current_time_based_pricing
depend only on the hour and minute components of the instant and of each
rule's start/end boundaries, so changing any seconds component (of the
instant or of any rule boundary) leaves their results unchanged. -/
theorem c10_minute_granularity (rules rules' : List PricingRule)
    (t t' : TimeOfDay)
    (hr : rules.map ruleHM = rules'.map ruleHM)
    (hh : t.hour = t'.hour) (hm : t.minute = t'.minute) :
    findPricePerUnit t.totalMinutes rules = findPricePerUnit t'.totalMinutes rules' ∧
    Pricing.get_current_time_based_pricing rules t =
      Pricing.get_current_time_based_pricing rules' t' := by
  have ht : t.totalMinutes = t'.totalMinutes := by
    simp [TimeOfDay.totalMinutes, hh, hm]
  constructor
  · rw [ht]
    exact findPricePerUnit_congr rules rules' hr t'.totalMinutes
  · show Pricing.get_current_time_based_pricing.loop rules t.totalMinutes = _
    rw [ht]
    exact timeLoop_congr rules rules' hr t'.totalMinutes

/-- Witness for c10_minute_granularity: the same band and instant with all
seconds components changed resolve identically. -/
theorem c10_minute_granularity_witness :
    findPricePerUnit (TimeOfDay.totalMinutes ⟨9, 15, 0⟩)
        [⟨⟨⟨8, 0, 0⟩, ⟨22, 0, 30⟩⟩, 1/10⟩] =
      findPricePerUnit (TimeOfDay.totalMinutes ⟨9, 15, 42⟩)
        [⟨⟨⟨8, 0, 59⟩, ⟨22, 0, 7⟩⟩, 1/10⟩] ∧
    Pricing.get_current_time_based_pricing [⟨⟨⟨8, 0, 0⟩, ⟨22, 0, 30⟩⟩, 1/10⟩] ⟨9, 15, 0⟩ =
      Pricing.get_current_time_based_pricing [⟨⟨⟨8, 0, 59⟩, ⟨22, 0, 7⟩⟩, 1/10⟩] ⟨9, 15, 42⟩ :=
  c10_minute_granularity [⟨⟨⟨8, 0, 0⟩, ⟨22, 0, 30⟩⟩, 1/10⟩]
    [⟨⟨⟨8, 0, 59⟩, ⟨22, 0, 7⟩⟩, 1/10⟩] ⟨9, 15, 0⟩ ⟨9, 15, 42⟩ rfl rfl rfl
